import Mathlib

/-!
Verification development for the Portfolio_Tracker web application (`app.py`).

The embedding follows the source: pure helpers become Lean functions, the
Flask route handlers become functions from request data (and an explicit
model of the single external HTTP call) to a result record describing the
response, the flashed messages and the database state after the request.
Python exceptions that the handler does not catch are modelled with
`Except`; a `.error` result corresponds to an uncaught exception that falls
through to Flask's 500 handler.

The mock-data module `data.py` is part of the repository but is not under
`src/`; its functions are modelled from the spec (see the doc comments of
`get_mock_stock_data` and `get_mock_profile_preferred`).
-/

set_option autoImplicit false
set_option linter.unusedVariables false

namespace PortfolioTracker

/-! ## Time-series data model

The provider's JSON time series is a string-keyed object mapping date
strings to OHLCV field objects (themselves string-keyed objects with string
values such as `"4. close" ↦ "150.25"`).  JSON objects have unique keys, so
an association list in iteration order is a faithful embedding; iterating
over entries coincides with looking each key up. -/

/-- One day's OHLCV fields: field name ↦ string value. -/
abbrev Fields := List (String × String)

/-- A time series: date string ↦ fields, in source iteration order. -/
abbrev TimeSeries := List (String × Fields)

/-- First value bound to `key` in a string-keyed JSON object (Python `d[key]`). -/
def lookupField (key : String) : List (String × String) → Option String
  | [] => none
  | (k, v) :: rest => if k == key then some v else lookupField key rest

/-! ## Python `float(str)` acceptance

`create_stock_graph` calls `float(...)` on every close value; only success
or failure of the parse is consumed by the program, so we embed the
CPython acceptance of `float` on a string: optional surrounding whitespace,
optional sign, then `inf`/`infinity`/`nan` (case-insensitive) or a decimal
number with optional fractional part and exponent, with underscores
permitted between digits. -/

/-- Whitespace stripped by Python `float(str)`. -/
def isPyWs (c : Char) : Bool :=
  c == ' ' || c == '\t' || c == '\n' || c == '\r' || c == '\x0b' || c == '\x0c'

/-- ASCII digit test. -/
def isPyDigit (c : Char) : Bool := '0' ≤ c && c ≤ '9'

/-- Consume further digits after an initial digit, allowing a single
underscore between digits (`1_000`), returning the unconsumed rest. -/
def digitTail : List Char → List Char
  | '_' :: c :: rest => if isPyDigit c then digitTail rest else '_' :: c :: rest
  | c :: rest => if isPyDigit c then digitTail rest else c :: rest
  | [] => []

/-- Consume a digit group (at least one digit, underscores between digits);
`none` when the input does not start with a digit. -/
def digitGroup : List Char → Option (List Char)
  | c :: rest => if isPyDigit c then some (digitTail rest) else none
  | [] => none

/-- Consume `digitpart [. [digitpart]] | . digitpart`. -/
def mantissa (cs : List Char) : Option (List Char) :=
  match digitGroup cs with
  | some rest =>
    match rest with
    | '.' :: rest2 =>
      match digitGroup rest2 with
      | some rest3 => some rest3
      | none => some rest2
    | _ => some rest
  | none =>
    match cs with
    | '.' :: rest2 => digitGroup rest2
    | _ => none

/-- Consume an optional exponent `('e'|'E') [sign] digitpart`. -/
def exponentPart (cs : List Char) : Option (List Char) :=
  match cs with
  | c :: rest =>
    if c == 'e' || c == 'E' then
      match rest with
      | s :: rest2 => if s == '+' || s == '-' then digitGroup rest2 else digitGroup rest
      | [] => none
    else some cs
  | [] => some []

/-- Case-insensitive match of an ASCII word, returning the rest. -/
def matchWordCI : List Char → List Char → Option (List Char)
  | [], cs => some cs
  | _ :: _, [] => none
  | p :: ps, c :: cs => if c.toLower == p then matchWordCI ps cs else none

/-- Acceptance of the unsigned part: `infinity`, `inf`, `nan` or a number. -/
def unsignedFloatOk (cs : List Char) : Bool :=
  match matchWordCI "infinity".toList cs with
  | some rest => rest.isEmpty
  | none =>
    match matchWordCI "inf".toList cs with
    | some rest => rest.isEmpty
    | none =>
      match matchWordCI "nan".toList cs with
      | some rest => rest.isEmpty
      | none =>
        match mantissa cs with
        | some rest =>
          match exponentPart rest with
          | some rest2 => rest2.isEmpty
          | none => false
        | none => false

/-- Whether Python `float(s)` succeeds. -/
def pyFloatParses (s : String) : Bool :=
  let stripped := ((s.toList.dropWhile isPyWs).reverse.dropWhile isPyWs).reverse
  match stripped with
  | c :: rest => if c == '+' || c == '-' then unsignedFloatOk rest else unsignedFloatOk stripped
  | [] => false

/-! ## Market data provider (`get_stock_data`) -/

/-- The parsed JSON body of the Alpha Vantage response, restricted to the
two fields `get_stock_data` consults (per the external-interface contract
the body is a JSON object): whether an `"Error Message"` field is present,
and the value of the `"Time Series (Daily)"` field when present. -/
structure ProviderJson where
  hasErrorMessage : Bool
  timeSeries : Option TimeSeries
  deriving DecidableEq

/-- Outcome of the single `requests.get` + `raise_for_status` + `.json()`
sequence: `failure` is any `requests.RequestException` (timeout, DNS
failure, non-2xx status, body that fails to parse as JSON), which the
handler catches; `success` carries the parsed JSON object. -/
inductive ProviderResult where
  | failure
  | success (data : ProviderJson)
  deriving DecidableEq

/-- Modelled from the spec: `get_mock_stock_data` lives in the repository's
`data.py`, which is not under `src/`.  The spec requires only that the mock
series generator is deterministic per ticker and supplies enough points to
render a chart (so each entry carries a numeric close value); exact values
are explicitly not a compatibility contract. -/
def get_mock_stock_data (ticker : String) : TimeSeries :=
  [ ("2024-01-02", [("1. open", "100.0"), ("4. close", "101.0")])
  , ("2024-01-03", [("1. open", "101.0"), ("4. close", "102.5")])
  , ("2024-01-04", [("1. open", "102.5"), ("4. close", "103.25")]) ]

/-- `get_stock_data` from `app.py`: issue the request; on
`requests.RequestException` return the mock series; if the parsed body has
an `"Error Message"` field, log and return the mock series; bind
`time_series = data.get('Time Series (Daily)')` and if it is falsy
(absent, or present but empty) return the mock series; otherwise return
`time_series` verbatim. -/
def get_stock_data (ticker : String) (response : ProviderResult) : TimeSeries :=
  match response with
  | .failure => get_mock_stock_data ticker
  | .success data =>
    if data.hasErrorMessage then get_mock_stock_data ticker
    else
      match data.timeSeries with
      | none => get_mock_stock_data ticker
      | some ts => if ts.isEmpty then get_mock_stock_data ticker else ts

/-- The mock series is never empty (holds for every ticker). -/
theorem get_mock_stock_data_ne_nil (ticker : String) :
    get_mock_stock_data ticker ≠ [] := by
  simp [get_mock_stock_data]

/-- `get_stock_data` always returns a non-empty series. -/
theorem get_stock_data_ne_nil (ticker : String)
    (response : ProviderResult) : get_stock_data ticker response ≠ [] := by
  cases response with
  | failure => simpa [get_stock_data] using get_mock_stock_data_ne_nil ticker
  | success data =>
    by_cases hErr : data.hasErrorMessage
    · simpa [get_stock_data, hErr] using get_mock_stock_data_ne_nil ticker
    · cases hts : data.timeSeries with
      | none => simpa [get_stock_data, hErr, hts] using get_mock_stock_data_ne_nil ticker
      | some ts =>
        cases ts with
        | nil => simpa [get_stock_data, hErr, hts] using get_mock_stock_data_ne_nil ticker
        | cons d rest => simp [get_stock_data, hErr, hts]

/-- C1: for every ticker string and every outcome of the external request,
`get_stock_data` returns a non-empty time series; as a total function of
the request outcome it propagates no error to its caller — every failure
of the external request resolves to the mock series for that ticker. -/
theorem C1_get_stock_data_total_nonempty (ticker : String)
    (response : ProviderResult) : get_stock_data ticker response ≠ [] :=
  get_stock_data_ne_nil ticker response

/-! ## Chart renderer (`create_stock_graph`) -/

/-- Python exceptions that `create_stock_graph` can raise and that its
caller does not catch: `KeyError` from `time_series[date]['4. close']`
when the field is absent, and `ValueError` from `float(value)` when the
close value is not numeric (this is the spec's `MalformedSeries` case). -/
inductive PyError where
  | keyError (key : String)
  | valueError (value : String)
  deriving DecidableEq

/-- The standard base64 alphabet used by `base64.b64encode`. -/
def base64Alphabet : List Char :=
  "ABCDEFGHIJKLMNOPQRSTUVWXYZabcdefghijklmnopqrstuvwxyz0123456789+/".toList

/-- Digit of the base64 alphabet (index taken modulo the table size by `getD`). -/
def base64Digit (n : Nat) : Char := base64Alphabet.getD n 'A'

/-- `base64.b64encode` over a byte list (bytes reduced modulo 256),
including `=` padding. -/
def base64Encode : List Nat → List Char
  | b0 :: b1 :: b2 :: rest =>
    base64Digit (b0 % 256 / 4) ::
    base64Digit (b0 % 4 * 16 + b1 % 256 / 16) ::
    base64Digit (b1 % 16 * 4 + b2 % 256 / 64) ::
    base64Digit (b2 % 64) ::
    base64Encode rest
  | [b0, b1] =>
    [base64Digit (b0 % 256 / 4), base64Digit (b0 % 4 * 16 + b1 % 256 / 16),
     base64Digit (b1 % 16 * 4), '=']
  | [b0] =>
    [base64Digit (b0 % 256 / 4), base64Digit (b0 % 4 * 16), '=', '=']
  | [] => []

/-- Abstract model of the matplotlib pipeline in `create_stock_graph`
(`plt.figure` … `plt.savefig(img, format='png')`): the PNG bytes produced
for the given ticker (used in the title), the date labels and the close
values.  The claims concern only error propagation and the data-URI
encoding of whatever bytes matplotlib produces, never the raster content,
so the byte producer is a parameter of the embedding. -/
abbrev PngRenderer := String → List String → List String → List Nat

/-- The list comprehension
`[float(time_series[date]['4. close']) for date in dates]`, evaluated left
to right with the first failure raising.  Dictionary keys are unique, so
looking each date up yields the entry's own fields.  Only success or
failure of each `float` call is consumed downstream, so the close values
are kept as their strings. -/
def extractCloses : TimeSeries → Except PyError (List String)
  | [] => .ok []
  | (_date, fields) :: rest =>
    match lookupField "4. close" fields with
    | none => .error (.keyError "4. close")
    | some v =>
      if pyFloatParses v then
        match extractCloses rest with
        | .ok vs => .ok (v :: vs)
        | .error e => .error e
      else .error (.valueError v)

/-- `create_stock_graph` from `app.py`: take the dates in iteration order,
convert every close value with `float` (raising on the first bad value),
plot, save as PNG into a buffer, base64-encode the buffer and prefix the
data-URI scheme. -/
def create_stock_graph (renderPng : PngRenderer) (ticker : String)
    (time_series : TimeSeries) : Except PyError String :=
  let dates := time_series.map Prod.fst
  match extractCloses time_series with
  | .error e => .error e
  | .ok close_prices =>
    .ok ("data:image/png;base64," ++
          String.mk (base64Encode (renderPng ticker dates close_prices)))

/-- Concrete byte producer (the PNG magic bytes) used to instantiate the
abstract renderer in concrete evaluations. -/
def pngStub : PngRenderer := fun _ _ _ => [137, 80, 78, 71]

/-- A data-URI string is never empty. -/
theorem dataUri_ne_empty (r : String) : "data:image/png;base64," ++ r ≠ "" := by
  intro h
  have h2 : ("data:image/png;base64," ++ r).data = "".data := congrArg String.data h
  simp [String.data, String.append] at h2

/-- When every entry has the `4. close` field and it parses as a float,
the close extraction succeeds. -/
theorem extractCloses_ok (ts : TimeSeries)
    (h : ∀ e ∈ ts, ∃ v, lookupField "4. close" e.2 = some v ∧ pyFloatParses v = true) :
    ∃ closes, extractCloses ts = .ok closes := by
  induction ts with
  | nil => exact ⟨[], rfl⟩
  | cons e rest ih =>
    obtain ⟨v, hv, hp⟩ := h e (List.mem_cons_self ..)
    obtain ⟨closes, hc⟩ := ih fun x hx => h x (List.mem_cons_of_mem _ hx)
    obtain ⟨date, fields⟩ := e
    exact ⟨v :: closes, by simp_all [extractCloses]⟩

/-- C7: for every series in which every close value is present and parses
as a float, `create_stock_graph` returns `ok` with a non-empty string that
is exactly the prefix `data:image/png;base64,` followed by the base64
encoding of the PNG bytes produced by the renderer. -/
theorem C7_create_stock_graph_data_uri (renderPng : PngRenderer) (ticker : String)
    (ts : TimeSeries)
    (h : ∀ e ∈ ts, ∃ v, lookupField "4. close" e.2 = some v ∧ pyFloatParses v = true) :
    ∃ closes s,
      extractCloses ts = .ok closes ∧
      s = "data:image/png;base64," ++
            String.mk (base64Encode (renderPng ticker (ts.map Prod.fst) closes)) ∧
      create_stock_graph renderPng ticker ts = .ok s ∧
      s ≠ "" := by
  obtain ⟨closes, hc⟩ := extractCloses_ok ts h
  exact ⟨closes, _, hc, rfl, by simp [create_stock_graph, hc], dataUri_ne_empty _⟩

/-- A one-point well-formed series used to instantiate C7. -/
def demoSeries : TimeSeries := [("2024-01-02", [("4. close", "101.0")])]

/-- Witness for C7 at a concrete renderer, ticker and series. -/
theorem C7_witness :
    ∃ closes s,
      extractCloses demoSeries = .ok closes ∧
      s = "data:image/png;base64," ++
            String.mk (base64Encode (pngStub "AAPL" (demoSeries.map Prod.fst) closes)) ∧
      create_stock_graph pngStub "AAPL" demoSeries = .ok s ∧
      s ≠ "" :=
  C7_create_stock_graph_data_uri pngStub "AAPL" demoSeries (by
    intro e he
    rw [demoSeries, List.mem_singleton] at he
    subst he
    exact ⟨"101.0", rfl, by decide⟩)

/-- C6 counterexample: a response whose body *has* the
`Time Series (Daily)` field, bound to an empty object.  The claim says the
parsed series is then returned verbatim (here the empty series); the code
instead falls back to the mock series because `if not time_series` treats
the empty dictionary as falsy. -/
theorem C6_counterexample :
    (ProviderJson.mk false (some [])).timeSeries = some [] ∧
    get_stock_data "AAPL" (.success (ProviderJson.mk false (some []))) =
      get_mock_stock_data "AAPL" ∧
    get_stock_data "AAPL" (.success (ProviderJson.mk false (some []))) ≠ [] := by
  refine ⟨rfl, rfl, ?_⟩
  decide

/-- C6 amended: `get_stock_data` returns the mock series when the body has
an `Error Message` field, when it lacks the `Time Series (Daily)` field,
and also when that field is present but empty (falsy); only a non-empty
parsed series is returned verbatim. -/
theorem C6_amended_fallback_policy (ticker : String) (data : ProviderJson) :
    (data.hasErrorMessage = true →
      get_stock_data ticker (.success data) = get_mock_stock_data ticker) ∧
    (data.hasErrorMessage = false → data.timeSeries = none →
      get_stock_data ticker (.success data) = get_mock_stock_data ticker) ∧
    (data.hasErrorMessage = false → data.timeSeries = some [] →
      get_stock_data ticker (.success data) = get_mock_stock_data ticker) ∧
    (∀ d rest, data.hasErrorMessage = false → data.timeSeries = some (d :: rest) →
      get_stock_data ticker (.success data) = d :: rest) := by
  refine ⟨?_, ?_, ?_, ?_⟩
  · intro hErr; simp [get_stock_data, hErr]
  · intro hErr hts; simp [get_stock_data, hErr, hts]
  · intro hErr hts; simp [get_stock_data, hErr, hts]
  · intro d rest hErr hts; simp [get_stock_data, hErr, hts]

/-- Witness for the amended C6 at a concrete response carrying a non-empty
series: it is returned verbatim. -/
theorem C6_witness :
    get_stock_data "MSFT"
        (.success (ProviderJson.mk false (some demoSeries))) = demoSeries :=
  (C6_amended_fallback_policy "MSFT"
      (ProviderJson.mk false (some demoSeries))).2.2.2
    ("2024-01-02", [("4. close", "101.0")]) [] rfl rfl

/-! ## The `/stock_tracker` route -/

/-- A Flask response as produced by the handlers: `render_template(name, …)`
or `redirect(url_for(target))`. -/
inductive Response where
  | render (template : String)
  | redirect (target : String)
  deriving DecidableEq

/-- HTTP status of a normally returned response: `render_template` is sent
with 200, `redirect` with 302. -/
def statusOf : Response → Nat
  | .render _ => 200
  | .redirect _ => 302

/-- Observable outcome of the `stock_tracker` handler body: the response,
the flashed messages (message, category), and the `stock_data` /
`graph_url` values passed to the template. -/
structure StResult where
  response : Response
  flashes : List (String × String)
  stock_data : Option TimeSeries
  graph_url : Option String
  deriving DecidableEq

/-- The `/stock_tracker` handler from `app.py`.  `authenticated` is the
session state consulted by the `login_required` decorator
(`login_manager.login_view = 'login'`); `submitted` is whether the request
is a POST whose CSRF check passes, so `form.validate_on_submit()` is true
iff `submitted` and the `DataRequired`-validated ticker field is
non-empty.  The call to `create_stock_graph` is not wrapped in any
`try/except`, so its exception escapes the handler as `.error`. -/
def stock_tracker (renderPng : PngRenderer) (authenticated : Bool)
    (provider : ProviderResult) (submitted : Bool) (ticker : String) :
    Except PyError StResult :=
  if authenticated = false then .ok ⟨.redirect "login", [], none, none⟩
  else if submitted && ticker != "" then
    let stock_data := get_stock_data ticker provider
    if stock_data.isEmpty then
      .ok ⟨.render "stock_tracker.html",
           [("Error retrieving stock data. Displaying mock data.", "danger")],
           some stock_data, none⟩
    else
      match create_stock_graph renderPng ticker stock_data with
      | .error e => .error e
      | .ok url => .ok ⟨.render "stock_tracker.html", [], some stock_data, some url⟩
  else .ok ⟨.render "stock_tracker.html", [], none, none⟩

/-- How Flask delivers a handler outcome: a normal return is sent as is,
while an uncaught exception falls to the registered 500 error handler,
which rolls the session back and renders `500.html`. -/
def httpPage : Except PyError StResult → Response
  | .ok r => r.response
  | .error _ => .render "500.html"

/-- HTTP status of the delivered outcome (500 for an uncaught exception). -/
def httpStatus : Except PyError StResult → Nat
  | .ok r => statusOf r.response
  | .error _ => 500

/-- Messages flashed during the request (none on the 500 path). -/
def httpFlashes : Except PyError StResult → List (String × String)
  | .ok r => r.flashes
  | .error _ => []

/-- The `stock_data` handed to the rendered template, when a page was
rendered at all. -/
def shownData : Except PyError StResult → Option TimeSeries
  | .ok r => r.stock_data
  | .error _ => none

/-- A series whose only close value does not parse as a float. -/
def badSeries : TimeSeries := [("2024-01-02", [("4. close", "abc")])]

/-- A provider response that delivers `badSeries` verbatim. -/
def badProvider : ProviderResult := .success ⟨false, some badSeries⟩

/-- When every entry has the close field but some close value does not
parse, the extraction fails with a `ValueError` on a non-parsing value. -/
theorem extractCloses_error_of_bad (ts : TimeSeries)
    (hfields : ∀ e ∈ ts, ∃ v, lookupField "4. close" e.2 = some v)
    (hbad : ∃ e ∈ ts, ∃ v, lookupField "4. close" e.2 = some v ∧
              pyFloatParses v = false) :
    ∃ v, pyFloatParses v = false ∧
      extractCloses ts = .error (.valueError v) := by
  induction ts with
  | nil => simp at hbad
  | cons e rest ih =>
    obtain ⟨v0, hv0⟩ := hfields e (List.mem_cons_self ..)
    by_cases hp : pyFloatParses v0 = true
    · have hbadr : ∃ x ∈ rest, ∃ v, lookupField "4. close" x.2 = some v ∧
          pyFloatParses v = false := by
        obtain ⟨x, hx, v, hv, hpv⟩ := hbad
        rcases List.mem_cons.mp hx with hhead | htail
        · subst hhead
          rw [hv0] at hv
          cases hv
          rw [hp] at hpv
          cases hpv
        · exact ⟨x, htail, v, hv, hpv⟩
      obtain ⟨v, hpv, hrec⟩ :=
        ih (fun x hx => hfields x (List.mem_cons_of_mem _ hx)) hbadr
      obtain ⟨date, fields⟩ := e
      exact ⟨v, hpv, by simp_all [extractCloses]⟩
    · obtain ⟨date, fields⟩ := e
      refine ⟨v0, by simpa using hp, ?_⟩
      simp_all [extractCloses]

/-- C2 counterexample: a valid authenticated ticker submission for which
the provider delivers a series with the non-numeric close value `"abc"`.
`create_stock_graph` raises (no image is produced), but `stock_tracker`
does not recover: the error escapes the handler, so the stock-tracker page
does not render and the request is answered by the 500 handler — refuting
"recovered there by omitting the chart, so the page still renders". -/
theorem C2_counterexample :
    create_stock_graph pngStub "AAPL" badSeries = .error (.valueError "abc") ∧
    stock_tracker pngStub true badProvider true "AAPL" =
      .error (.valueError "abc") ∧
    httpStatus (stock_tracker pngStub true badProvider true "AAPL") = 500 ∧
    httpPage (stock_tracker pngStub true badProvider true "AAPL") =
      .render "500.html" :=
  ⟨rfl, rfl, rfl, rfl⟩

/-- C2 amended: on a series whose entries all carry a close field and at
least one close value does not parse, `create_stock_graph` fails with a
`ValueError` (the spec's `MalformedSeries`) and produces no image, and the
error is delivered to `stock_tracker` — but it is *not* recovered there:
it propagates uncaught, the page does not render, and the request falls to
the 500 handler. -/
theorem C2_amended_error_propagates (renderPng : PngRenderer) (ticker : String)
    (ts : TimeSeries) (hticker : ticker ≠ "")
    (hfields : ∀ e ∈ ts, ∃ v, lookupField "4. close" e.2 = some v)
    (hbad : ∃ e ∈ ts, ∃ v, lookupField "4. close" e.2 = some v ∧
              pyFloatParses v = false) :
    ∃ v, pyFloatParses v = false ∧
      create_stock_graph renderPng ticker ts = .error (.valueError v) ∧
      stock_tracker renderPng true (.success ⟨false, some ts⟩) true ticker =
        .error (.valueError v) ∧
      httpStatus (stock_tracker renderPng true (.success ⟨false, some ts⟩)
        true ticker) = 500 := by
  obtain ⟨v, hpv, hext⟩ := extractCloses_error_of_bad ts hfields hbad
  have hcreate : create_stock_graph renderPng ticker ts =
      .error (.valueError v) := by
    simp [create_stock_graph, hext]
  have hts_ne : ts ≠ [] := by
    obtain ⟨e, he, _⟩ := hbad
    exact List.ne_nil_of_mem he
  have hget : get_stock_data ticker (.success ⟨false, some ts⟩) = ts := by
    cases ts with
    | nil => exact absurd rfl hts_ne
    | cons a l => simp [get_stock_data]
  have hempty : ts.isEmpty = false := by
    cases ts with
    | nil => exact absurd rfl hts_ne
    | cons a l => rfl
  have hst : stock_tracker renderPng true (.success ⟨false, some ts⟩)
      true ticker = .error (.valueError v) := by
    simp [stock_tracker, hticker, hget, hempty, hcreate]
  exact ⟨v, hpv, hcreate, hst, by rw [hst]; rfl⟩

/-- Witness for the amended C2 at the concrete malformed series. -/
theorem C2_witness :
    ∃ v, pyFloatParses v = false ∧
      create_stock_graph pngStub "AAPL" badSeries = .error (.valueError v) ∧
      stock_tracker pngStub true (.success ⟨false, some badSeries⟩) true "AAPL" =
        .error (.valueError v) ∧
      httpStatus (stock_tracker pngStub true (.success ⟨false, some badSeries⟩)
        true "AAPL") = 500 :=
  C2_amended_error_propagates pngStub "AAPL" badSeries (by decide)
    (by
      intro e he
      simp only [badSeries, List.mem_singleton] at he
      subst he
      exact ⟨"abc", rfl⟩)
    ⟨("2024-01-02", [("4. close", "abc")]), by simp [badSeries], "abc", rfl,
      by decide⟩

/-- No run of the `stock_tracker` handler flashes any message: the flash
branch is guarded by `stock_data` being empty, which `get_stock_data`
never produces. -/
theorem stock_tracker_flashes_nil (renderPng : PngRenderer)
    (authenticated : Bool) (provider : ProviderResult) (submitted : Bool)
    (ticker : String) :
    httpFlashes (stock_tracker renderPng authenticated provider submitted
      ticker) = [] := by
  by_cases hauth : authenticated = false
  · simp [stock_tracker, hauth, httpFlashes]
  · by_cases hs : (submitted && ticker != "") = true
    · have hempty : (get_stock_data ticker provider).isEmpty = false := by
        cases hg : get_stock_data ticker provider with
        | nil => exact absurd hg (get_stock_data_ne_nil ticker provider)
        | cons a l => rfl
      cases hcg : create_stock_graph renderPng ticker
          (get_stock_data ticker provider) with
      | error e => simp [stock_tracker, hauth, hs, hempty, hcg, httpFlashes]
      | ok url => simp [stock_tracker, hauth, hs, hempty, hcg, httpFlashes]
    · simp [stock_tracker, hauth, hs, httpFlashes]

/-- C3: at the failing input — an authenticated, valid POST of ticker
`AAPL` while the external request fails — the handler renders the
stock-tracker page from the mock series with status 200, but flashes *no*
warning; indeed no run of the handler ever flashes one, because the flash
branch is unreachable (`get_stock_data` never returns an empty series).
This contradicts the claimed "flash warning" behavior, whose intent is
visible in the handler's own dead `flash(...)` call. -/
theorem C3_no_warning_flashed :
    httpStatus (stock_tracker pngStub true .failure true "AAPL") = 200 ∧
    httpPage (stock_tracker pngStub true .failure true "AAPL") =
      .render "stock_tracker.html" ∧
    shownData (stock_tracker pngStub true .failure true "AAPL") =
      some (get_mock_stock_data "AAPL") ∧
    httpFlashes (stock_tracker pngStub true .failure true "AAPL") = [] ∧
    (∀ renderPng authenticated provider submitted ticker,
      httpFlashes (stock_tracker renderPng authenticated provider submitted
        ticker) = []) :=
  ⟨rfl, rfl, rfl, rfl, stock_tracker_flashes_nil⟩

/-! ## Credential store -/

/-- A salted password hash as stored by werkzeug's
`generate_password_hash`: the salt together with the digest
`kdf salt password` of the underlying key-derivation function.  The KDF
itself (scrypt) lives in werkzeug, outside this repository; it is a
parameter of the embedding. -/
structure PasswordHash where
  salt : String
  digest : String
  deriving DecidableEq

/-- werkzeug `generate_password_hash`: draw a salt (passed explicitly
here) and derive the digest from salt and plaintext. -/
def generate_password_hash (kdf : String → String → String) (salt : String)
    (password : String) : PasswordHash :=
  ⟨salt, kdf salt password⟩

/-- werkzeug `check_password_hash`: recompute the digest with the stored
salt and compare it to the stored digest. -/
def check_password_hash (kdf : String → String → String) (h : PasswordHash)
    (password : String) : Bool :=
  kdf h.salt password == h.digest

/-- The `User` model row: integer id, unique username, unique email, and
the password hash (never the plaintext). -/
structure User where
  id : Nat
  username : String
  email : String
  password_hash : PasswordHash
  deriving DecidableEq

/-- `User.set_password` from `app.py`. -/
def User.set_password (kdf : String → String → String) (salt : String)
    (u : User) (password : String) : User :=
  { u with password_hash := generate_password_hash kdf salt password }

/-- `User.check_password` from `app.py`. -/
def User.check_password (kdf : String → String → String) (u : User)
    (password : String) : Bool :=
  check_password_hash kdf u.password_hash password

/-- C8: for every KDF, salt and password `p`, `check_password` succeeds on
the hash `set_password` stores from `p`; and whenever the KDF is
collision-free at that salt (the property the werkzeug construction is
chosen for), `check_password` with `p` fails on the hash stored from any
different password `q`. -/
theorem C8_hash_verify (kdf : String → String → String) (salt : String)
    (u : User) (p q : String)
    (hinj : ∀ a b, kdf salt a = kdf salt b → a = b) (hne : p ≠ q) :
    (User.set_password kdf salt u p).check_password kdf p = true ∧
    (User.set_password kdf salt u q).check_password kdf p = false := by
  constructor
  · simp [User.set_password, User.check_password, generate_password_hash,
      check_password_hash]
  · have hd : kdf salt p ≠ kdf salt q := fun hh => hne (hinj p q hh)
    simp [User.set_password, User.check_password, generate_password_hash,
      check_password_hash, hd]

/-- An injective stand-in KDF used to instantiate the abstract KDF in
concrete evaluations. -/
def idKdf : String → String → String := fun _ p => p

/-- A concrete user row. -/
def demoUser : User := ⟨1, "alice", "alice@example.com", ⟨"s0", "secret123"⟩⟩

/-- Witness for C8 at a concrete KDF, salt, user and password pair. -/
theorem C8_witness :
    (User.set_password idKdf "salt0" demoUser "secret123").check_password
      idKdf "secret123" = true ∧
    (User.set_password idKdf "salt0" demoUser "hunter2").check_password
      idKdf "secret123" = false :=
  C8_hash_verify idKdf "salt0" demoUser "secret123" "hunter2"
    (fun a b h => h) (by decide)

/-! ## Registration (`/register`) -/

/-- The user table. -/
abbrev Store := List User

/-- `User.query.filter_by(username=...).first()`. -/
def findByUsername (store : Store) (username : String) : Option User :=
  store.find? (fun u => u.username == username)

/-- `User.query.filter_by(email=...).first()`. -/
def findByEmail (store : Store) (email : String) : Option User :=
  store.find? (fun u => u.email == email)

/-- Field-validation failures of the registration form.
`duplicateUsername` / `duplicateEmail` are the `ValidationError`s raised
by the form's `validate_username` / `validate_email` methods ('Please use
a different username.' / 'Please use a different email address.'). -/
inductive FieldError where
  | requiredMissing (field : String)
  | invalidEmail
  | passwordMismatch
  | duplicateUsername
  | duplicateEmail
  deriving DecidableEq

/-- The wtforms `Email()` format check is an external library validator;
only its boolean verdict reaches this code and no claim depends on its
exact acceptance, so it is embedded as the presence of an `@`. -/
def emailFormatOk (email : String) : Bool := email.contains '@'

/-- Username field: `DataRequired` stops the chain on an empty value;
otherwise `validate_username` rejects a username already in the store. -/
def usernameFieldErrors (store : Store) (username : String) : List FieldError :=
  if username == "" then [.requiredMissing "username"]
  else if (findByUsername store username).isSome then [.duplicateUsername]
  else []

/-- Email field: `DataRequired` stops the chain on an empty value;
otherwise both the `Email` format validator and `validate_email` run. -/
def emailFieldErrors (store : Store) (email : String) : List FieldError :=
  if email == "" then [.requiredMissing "email"]
  else (if emailFormatOk email then [] else [.invalidEmail]) ++
       (if (findByEmail store email).isSome then [.duplicateEmail] else [])

/-- Password field: `DataRequired`. -/
def passwordFieldErrors (password : String) : List FieldError :=
  if password == "" then [.requiredMissing "password"] else []

/-- Repeat-password field: `DataRequired`, then `EqualTo('password')`. -/
def password2FieldErrors (password password2 : String) : List FieldError :=
  if password2 == "" then [.requiredMissing "password2"]
  else if password2 == password then [] else [.passwordMismatch]

/-- All validation errors of a submitted registration form. -/
def registrationErrors (store : Store)
    (username email password password2 : String) : List FieldError :=
  usernameFieldErrors store username ++ emailFieldErrors store email ++
  passwordFieldErrors password ++ password2FieldErrors password password2

/-- Observable outcome of the `/register` handler: response, flashed
messages, the form's field errors, and the user table afterwards. -/
structure RegResult where
  response : Response
  flashes : List String
  errors : List FieldError
  store : Store
  deriving DecidableEq

/-- The `/register` handler from `app.py`: an authenticated user is sent
to the index before any form processing; otherwise a submitted form that
passes every validator constructs a `User`, hashes the password, commits
the row and redirects to the login page; a failed submit redisplays the
form with its field errors. -/
def register (kdf : String → String → String) (salt : String) (nextId : Nat)
    (store : Store) (authenticated submitted : Bool)
    (username email password password2 : String) : RegResult :=
  if authenticated then ⟨.redirect "index", [], [], store⟩
  else
    let errs := registrationErrors store username email password password2
    if submitted && errs.isEmpty then
      ⟨.redirect "login", ["Congratulations, you are now a registered user!"],
       [], store ++ [{ id := nextId, username := username, email := email,
                       password_hash := generate_password_hash kdf salt password }]⟩
    else ⟨.render "register.html", [], if submitted then errs else [], store⟩

/-- A list with a member is not empty. -/
theorem isEmpty_false_of_mem {α : Type} {a : α} {l : List α} (h : a ∈ l) :
    l.isEmpty = false := by
  cases l with
  | nil => cases h
  | cons x xs => rfl

/-- C4: on a submitted, unauthenticated registration over a store whose
rows have non-empty usernames and emails (the invariant `register` itself
maintains via `DataRequired`), a username already present produces the
`duplicateUsername` field error and an email already present produces
`duplicateEmail`; in either case the form fails — the register page is
redisplayed rather than redirecting — and the store is returned unchanged:
no record is created. -/
theorem C4_register_duplicate_rejected (kdf : String → String → String)
    (salt : String) (nextId : Nat) (store : Store)
    (username email password password2 : String)
    (hstore : ∀ u ∈ store, u.username ≠ "" ∧ u.email ≠ "") :
    ((findByUsername store username).isSome = true →
      FieldError.duplicateUsername ∈
        (register kdf salt nextId store false true username email password
          password2).errors ∧
      (register kdf salt nextId store false true username email password
        password2).store = store ∧
      (register kdf salt nextId store false true username email password
        password2).response = .render "register.html") ∧
    ((findByEmail store email).isSome = true →
      FieldError.duplicateEmail ∈
        (register kdf salt nextId store false true username email password
          password2).errors ∧
      (register kdf salt nextId store false true username email password
        password2).store = store ∧
      (register kdf salt nextId store false true username email password
        password2).response = .render "register.html") := by
  constructor
  · intro hdup
    obtain ⟨u, hu⟩ := Option.isSome_iff_exists.mp hdup
    have humem : u ∈ store := List.mem_of_find?_eq_some hu
    have huser : u.username = username := by simpa using List.find?_some hu
    have hne : username ≠ "" := huser ▸ (hstore u humem).1
    have hUerrs : usernameFieldErrors store username = [.duplicateUsername] := by
      simp [usernameFieldErrors, hne, hdup]
    have herrs : FieldError.duplicateUsername ∈
        registrationErrors store username email password password2 := by
      simp [registrationErrors, hUerrs]
    have hempty := isEmpty_false_of_mem herrs
    exact ⟨by simp [register, hempty, herrs], by simp [register, hempty],
      by simp [register, hempty]⟩
  · intro hdup
    obtain ⟨u, hu⟩ := Option.isSome_iff_exists.mp hdup
    have humem : u ∈ store := List.mem_of_find?_eq_some hu
    have hmail : u.email = email := by simpa using List.find?_some hu
    have hne : email ≠ "" := hmail ▸ (hstore u humem).2
    have hEerrs : FieldError.duplicateEmail ∈ emailFieldErrors store email := by
      simp [emailFieldErrors, hne, hdup]
    have herrs : FieldError.duplicateEmail ∈
        registrationErrors store username email password password2 := by
      simp [registrationErrors, List.mem_append, hEerrs]
    have hempty := isEmpty_false_of_mem herrs
    exact ⟨by simp [register, hempty, herrs], by simp [register, hempty],
      by simp [register, hempty]⟩

/-- A store seeded with one registered user. -/
def seededStore : Store := [⟨1, "alice", "alice@example.com", ⟨"s0", "secret123"⟩⟩]

/-- Witness for C4: re-registering the username `alice` over the seeded
store fails with the duplicate-username error and leaves the store as is. -/
theorem C4_witness :
    FieldError.duplicateUsername ∈
      (register idKdf "s1" 2 seededStore false true "alice" "new@example.com"
        "pw" "pw").errors ∧
    (register idKdf "s1" 2 seededStore false true "alice" "new@example.com"
      "pw" "pw").store = seededStore ∧
    (register idKdf "s1" 2 seededStore false true "alice" "new@example.com"
      "pw" "pw").response = .render "register.html" :=
  (C4_register_duplicate_rejected idKdf "s1" 2 seededStore "alice"
    "new@example.com" "pw" "pw"
    (by
      intro u hu
      simp only [seededStore, List.mem_singleton] at hu
      subst hu
      exact ⟨by decide, by decide⟩)).1 rfl

/-! ## Login (`/login`) -/

/-- Observable outcome of the `/login` handler: response, flashed
messages, and the `login_user` call (user id, remember flag) when a
session was established. -/
structure LoginResult where
  response : Response
  flashes : List String
  sessionLogin : Option (Nat × Bool)
  deriving DecidableEq

/-- The single result of a failed credential check in `login`: the same
flashed message and the same redirect whether the username was unknown or
the password wrong. -/
def invalidCredentialsResult : LoginResult :=
  ⟨.redirect "login", ["Invalid username or password"], none⟩

/-- The `/login` handler from `app.py`: an authenticated user is sent to
the index before any form processing; on a submitted form (username and
password are both `DataRequired`), the user is looked up by username and
the password checked, with `user is None or not user.check_password(...)`
collapsing both failures into one branch. -/
def login (kdf : String → String → String) (store : Store)
    (authenticated submitted : Bool) (username password : String)
    (remember : Bool) : LoginResult :=
  if authenticated then ⟨.redirect "index", [], none⟩
  else if submitted && username != "" && password != "" then
    match findByUsername store username with
    | none => invalidCredentialsResult
    | some user =>
      if user.check_password kdf password then
        ⟨.redirect "index", [], some (user.id, remember)⟩
      else invalidCredentialsResult
  else ⟨.render "login.html", [], none⟩

/-- C5: on a submitted, unauthenticated login, the session is established
exactly for the stored user whose username matches and whose password
verifies, with a redirect home; an unknown username and a wrong password
both yield the very same `invalidCredentialsResult` — the same error
value, the same flashed message, no session — so the two failure cases
are indistinguishable to the caller. -/
theorem C5_authenticate_cases (kdf : String → String → String) (store : Store)
    (username password : String) (remember : Bool)
    (hu : username ≠ "") (hp : password ≠ "") :
    (∀ user, findByUsername store username = some user →
      (user.check_password kdf password = true →
        login kdf store false true username password remember =
          ⟨.redirect "index", [], some (user.id, remember)⟩) ∧
      (user.check_password kdf password = false →
        login kdf store false true username password remember =
          invalidCredentialsResult)) ∧
    (findByUsername store username = none →
      login kdf store false true username password remember =
        invalidCredentialsResult) := by
  refine ⟨?_, ?_⟩
  · intro user hfind
    constructor
    · intro hchk; simp [login, hu, hp, hfind, hchk]
    · intro hchk; simp [login, hu, hp, hfind, hchk]
  · intro hfind; simp [login, hu, hp, hfind]

/-- Witness for C5: a login attempt with an unknown username over the
seeded store resolves to the indistinguishable failure result. -/
theorem C5_witness :
    login idKdf seededStore false true "bob" "pw" false =
      invalidCredentialsResult :=
  (C5_authenticate_cases idKdf seededStore "bob" "pw" false (by decide)
    (by decide)).2 rfl

/-- C10: while a session is active, `/login` and `/register` redirect to
the index immediately: for every form payload the result is the same
fixed redirect — no flash, no `login_user` call, no field errors, and the
store unchanged — so no credential check is performed and no user record
is created. -/
theorem C10_authenticated_skips_forms (kdf : String → String → String)
    (salt : String) (nextId : Nat) (store : Store) (submitted : Bool)
    (username email password password2 : String) (remember : Bool) :
    login kdf store true submitted username password remember =
      ⟨.redirect "index", [], none⟩ ∧
    register kdf salt nextId store true submitted username email password
      password2 = ⟨.redirect "index", [], [], store⟩ :=
  ⟨rfl, rfl⟩

/-! ## Access control on protected routes -/

/-- flask_login's `login_required` with `login_manager.login_view =
'login'`: with no active session the request is answered by a redirect to
the login view and the wrapped handler body is not invoked; otherwise the
body runs. -/
def login_required (body : Unit → Response) (authenticated : Bool) : Response :=
  if authenticated then body () else .redirect "login"

/-- Modelled from the spec: `get_mock_profile` lives in the repository's
`data.py`, which is not under `src/`; the dashboard consumes its
`preferred_stocks` list of tickers. -/
def get_mock_profile_preferred (userId : Nat) : List String :=
  ["AAPL", "GOOGL", "MSFT"]

/-- The `/dashboard` handler body: a series per preferred ticker, then the
dashboard template. -/
def dashboard_body (provider : String → ProviderResult) (userId : Nat) :
    Response :=
  let _stock_data := (get_mock_profile_preferred userId).map
    (fun ticker => (ticker, get_stock_data ticker (provider ticker)))
  .render "dashboard.html"

/-- The `/dashboard` route: `login_required` around the body. -/
def dashboard (provider : String → ProviderResult) (userId : Nat)
    (authenticated : Bool) : Response :=
  login_required (fun _ => dashboard_body provider userId) authenticated

/-- The `/profile` route: `login_required` around the profile render. -/
def profile (userId : Nat) (authenticated : Bool) : Response :=
  login_required (fun _ => .render "profile.html") authenticated

/-- The `/recommendations` route: `login_required` around the render. -/
def recommendations (authenticated : Bool) : Response :=
  login_required (fun _ => .render "recommendations.html") authenticated

/-- C9: with no active session each protected route answers with a
redirect to the login view; the redirect is forced by the
`login_required` wrapper alone — for *every* handler body the wrapper
yields the redirect without invoking the body, and the guarded
`stock_tracker` handler returns the redirect for every renderer, provider
outcome and form payload. -/
theorem C9_unauthenticated_redirects :
    (∀ provider userId, dashboard provider userId false = .redirect "login") ∧
    (∀ userId, profile userId false = .redirect "login") ∧
    recommendations false = .redirect "login" ∧
    (∀ renderPng provider submitted ticker,
      stock_tracker renderPng false provider submitted ticker =
        .ok ⟨.redirect "login", [], none, none⟩) ∧
    (∀ body, login_required body false = .redirect "login") := by
  refine ⟨?_, ?_, rfl, ?_, ?_⟩ <;> intros <;> rfl

end PortfolioTracker
